import Mathlib

/-!
Shallow embedding of the sdp-backend poll resolver and command ledger
(src/sdp-backend/src/poll.rs and src/sdp-backend/src/command.rs).

The Postgres ledger is modelled as an explicit `DB` state: a list of rows
plus the next identity the database would assign.  Every sqlx call in the
source becomes a pure function over `DB`; calls that the source performs
with `.await?` propagate errors through `Except`, and the single
best-effort call (`complete(...).await.ok()`) discards its result.  The
clock (`chrono::Utc::now()`) is passed in as an explicit `now : Int`
(epoch seconds, matching the `num_seconds` arithmetic of the source).
-/

namespace SdpBackend

/-- CleaningPattern enum, command.rs lines 22-26. -/
inductive CleaningPattern
  | ZigZag
  | Circular
deriving DecidableEq, Fintype

/-- AbortReason enum, command.rs lines 27-32 (the source spells "Saftey"). -/
inductive AbortReason
  | LowBattery
  | Saftey
  | Obstacle
deriving DecidableEq, Fintype

/-- Instruction enum, command.rs lines 34-41. -/
inductive Instruction
  | Continue
  | Pause
  | Abort (reason : AbortReason)
  | Task (pattern : CleaningPattern)
  | Idle
deriving DecidableEq, Fintype

/-- Error variants of crate::error::ApiError used by poll.rs and command.rs.
error.rs itself is not under src/; the variant names are taken from their
uses in the two files (CommandNotInTimeIssuedBuffer, SerializationError,
DatabaseConnFailed, CmdInstructionNotSupported). -/
inductive ApiError
  | CommandNotInTimeIssuedBuffer
  | SerializationError
  | DatabaseConnFailed
  | CmdInstructionNotSupported
deriving DecidableEq

/-- command.rs line 7: TODO-marked placeholder buffer. -/
def TIME_ISSUED_BUFFER : Int := 1000

/-- command.rs line 8: TODO-marked placeholder buffer. -/
def TIME_INSTRUCTION_BUFFER : Int := 1000

/-- poll.rs line 10. -/
def MINIMUM_BATTERY_LEVEL : Int := 50

/-- One persisted row of the Commands table: columns
(command_id, robot_serial_number, time_issued, time_instruction,
instruction as serialized text, completed).  Timestamps are epoch seconds. -/
structure Row where
  command_id : Int
  robot_serial_number : String
  time_issued : Int
  time_instruction : Int
  instruction : String
  completed : Bool
deriving DecidableEq

/-- The ledger state.  `next_command_id` models the identity the database
assigns via `RETURNING command_id`.  `complete_fails` is an injection point
for the one I/O outcome the source deliberately tolerates: when true, the
UPDATE in `Command::complete` fails (sqlx error mapped to
DatabaseConnFailed) and leaves the rows unchanged. -/
structure DB where
  rows : List Row
  next_command_id : Int
  complete_fails : Bool
deriving DecidableEq

/-- In-memory Command struct, command.rs lines 10-20. -/
structure Command where
  command_id : Int
  robot_serial_number : String
  time_issued : Int
  time_instruction : Int
  instruction : Instruction
  completed : Bool
deriving DecidableEq

/-- The canonical serde_json encoding of each Instruction variant: unit
variants as bare JSON strings, newtype variants as one-field objects
(serde externally-tagged representation). -/
def serde_json_to_string : Instruction → String
  | .Continue => "\"Continue\""
  | .Pause => "\"Pause\""
  | .Abort .LowBattery => "\x7b\"Abort\":\"LowBattery\"\x7d"
  | .Abort .Saftey => "\x7b\"Abort\":\"Saftey\"\x7d"
  | .Abort .Obstacle => "\x7b\"Abort\":\"Obstacle\"\x7d"
  | .Task .ZigZag => "\x7b\"Task\":\"ZigZag\"\x7d"
  | .Task .Circular => "\x7b\"Task\":\"Circular\"\x7d"
  | .Idle => "\"Idle\""

/-- All Instruction values (the enum is a closed set of eight). -/
def all_instructions : List Instruction :=
  [.Continue, .Pause, .Abort .LowBattery, .Abort .Saftey, .Abort .Obstacle,
   .Task .ZigZag, .Task .Circular, .Idle]

/-- serde_json::from_str::<Instruction>, modelled on the canonical
encodings: text deserializes to the Instruction whose canonical encoding it
equals, and parsing fails (none) on any other text. -/
def serde_json_from_str (s : String) : Option Instruction :=
  (all_instructions.filter (fun i => serde_json_to_string i == s)).head?

/-- serde_json::to_string as the fallible call command.rs line 62 makes:
on this enum it always succeeds. -/
def instruction_to_json (i : Instruction) : Option String :=
  some (serde_json_to_string i)

/-- How both `Command::current` (command.rs lines 113-121) and
`Command::pending` (lines 145-153) turn a fetched row into a Command.
Note the source populates the `time_instruction` field from the row's
`time_issued` column, and maps a failed instruction parse to
`Abort(Saftey)` via `unwrap_or`. -/
def Command.ofRow (r : Row) : Command :=
  { command_id := r.command_id
    robot_serial_number := r.robot_serial_number
    time_issued := r.time_issued
    time_instruction := r.time_issued
    instruction := (serde_json_from_str r.instruction).getD (.Abort .Saftey)
    completed := r.completed }

/-- Command::new, command.rs lines 44-96.  `now` is the
`chrono::Utc::now()` read at line 53; `ser` is the serde_json::to_string
call at line 62 (instantiated with `instruction_to_json` by every caller
in this system).  The INSERT does not set `completed`; the stored row gets
the schema default, which is false (spec section 3: completed starts
false; the migration defining the default is not under src/). -/
def Command.new (db : DB) (now : Int) (robot_serial_number : String)
    (time_issued : Int) (time_instruction : Int) (instruction : Instruction)
    (ser : Instruction → Option String) : Except ApiError Command × DB :=
  let time_difference : Int := (now - time_issued).natAbs
  if time_difference > TIME_ISSUED_BUFFER then
    (.error .CommandNotInTimeIssuedBuffer, db)
  else
    match ser instruction with
    | none => (.error .SerializationError, db)
    | some instruction_json =>
      let row : Row :=
        { command_id := db.next_command_id
          robot_serial_number := robot_serial_number
          time_issued := time_issued
          time_instruction := time_instruction
          instruction := instruction_json
          completed := false }
      (.ok { command_id := db.next_command_id
             robot_serial_number := robot_serial_number
             time_issued := time_issued
             time_instruction := time_instruction
             instruction := instruction
             completed := false },
       { db with rows := db.rows ++ [row],
                 next_command_id := db.next_command_id + 1 })

/-- Command::current, command.rs lines 99-126.  The SQL selects the rows
of the robot whose time_issued equals the robot's maximum time_issued
(NATURAL JOIN against the one-row MAX subquery; when the robot has no rows
the MAX is NULL, the join is empty and `fetch_one` fails, mapped to
DatabaseConnFailed).  `fetch_one` yields the first row of the result. -/
def Command.current (db : DB) (robot_serial_number : String) :
    Except ApiError Command :=
  let robot_rows :=
    db.rows.filter (fun r => r.robot_serial_number == robot_serial_number)
  match (robot_rows.map Row.time_issued).max? with
  | none => .error .DatabaseConnFailed
  | some m =>
    match (robot_rows.filter (fun r => r.time_issued == m)).head? with
    | none => .error .DatabaseConnFailed
    | some r => .ok (Command.ofRow r)

/-- The rows the pending query returns, command.rs lines 130-139:
the robot's rows with completed = false, ORDER BY time_instruction DESC
(List.insertionSort is stable, like Postgres sort on equal keys is
unspecified; ties keep fetch order here). -/
def Command.pending_rows (db : DB) (robot_serial_number : String) : List Row :=
  List.insertionSort
    (fun a b => b.time_instruction ≤ a.time_instruction)
    (db.rows.filter
      (fun r => r.robot_serial_number == robot_serial_number &&
                r.completed == false))

/-- The pending_commands vector built at command.rs lines 141-159. -/
def Command.pending_commands (db : DB) (robot_serial_number : String) :
    List Command :=
  (Command.pending_rows db robot_serial_number).map Command.ofRow

/-- Command::valid_time_instruction, command.rs lines 187-193. -/
def Command.valid_time_instruction (c : Command) (now : Int) : Bool :=
  let time_difference : Int := (now - c.time_instruction).natAbs
  time_difference < TIME_INSTRUCTION_BUFFER

/-- Command::complete, command.rs lines 168-185: sets completed = true on
the row with this command_id.  When the UPDATE fails (`complete_fails`),
returns the mapped DatabaseConnFailed error and leaves the ledger as is. -/
def Command.complete (c : Command) (db : DB) : Except ApiError Unit × DB :=
  if db.complete_fails then
    (.error .DatabaseConnFailed, db)
  else
    (.ok (),
     { db with rows := db.rows.map (fun r =>
         if r.command_id == c.command_id then { r with completed := true }
         else r) })

/-- Command::idle, command.rs lines 217-229: a new Idle command with
time_issued = time_instruction = now. -/
def Command.idle (db : DB) (now : Int) (robot_serial_number : String) :
    Except ApiError Command × DB :=
  Command.new db now robot_serial_number now now .Idle instruction_to_json

/-- Command::abort, command.rs lines 198-214. -/
def Command.abort (db : DB) (now : Int) (robot_serial_number : String)
    (reason : AbortReason) : Except ApiError Command × DB :=
  Command.new db now robot_serial_number now now (.Abort reason)
    instruction_to_json

/-- Command::task, command.rs lines 231-247. -/
def Command.task (db : DB) (now : Int) (robot_serial_number : String)
    (cleaning_pattern : CleaningPattern) : Except ApiError Command × DB :=
  Command.new db now robot_serial_number now now (.Task cleaning_pattern)
    instruction_to_json

/-- Command::pending, command.rs lines 129-166: take the head of the
pending list; if it exists and its time_instruction is valid return it
unchanged, otherwise issue a fresh Idle command. -/
def Command.pending (db : DB) (now : Int) (robot_serial_number : String) :
    Except ApiError Command × DB :=
  match (Command.pending_commands db robot_serial_number).head? with
  | some cmd =>
    if cmd.valid_time_instruction now then (.ok cmd, db)
    else Command.idle db now robot_serial_number
  | none => Command.idle db now robot_serial_number

/-- Poll request struct, poll.rs lines 12-17. -/
structure Poll where
  robot_serial_number : String
  instruction : Instruction
  battery_level : Int
deriving DecidableEq

/-- Poll::check_battery, poll.rs lines 66-70. -/
def Poll.check_battery (p : Poll) : Bool :=
  decide (p.battery_level ≥ 0) &&
  decide (p.battery_level > MINIMUM_BATTERY_LEVEL) &&
  decide (p.battery_level ≤ 100)

/-- Poll::poll, poll.rs lines 20-60.  `.complete(conn).await.ok()` keeps
whatever the completion attempt did to the ledger and discards its
Result. -/
def Poll.poll (db : DB) (now : Int) (next_command : Poll) :
    Except ApiError Command × DB :=
  if !next_command.check_battery then
    Command.abort db now next_command.robot_serial_number .LowBattery
  else
    match Command.current db next_command.robot_serial_number with
    | .error e => (.error e, db)
    | .ok prev_command =>
      match prev_command.instruction, next_command.instruction with
      | _, .Abort reason =>
        let db1 := (prev_command.complete db).2
        Command.abort db1 now next_command.robot_serial_number reason
      | .Task p, .Task q =>
        if p = q then (.ok prev_command, db)
        else (.error .CmdInstructionNotSupported, db)
      | .Task _, .Idle =>
        let db1 := (prev_command.complete db).2
        Command.pending db1 now prev_command.robot_serial_number
      | _, .Idle => Command.pending db now prev_command.robot_serial_number
      | _, _ => (.error .CmdInstructionNotSupported, db)

/-! ## Helper lemmas -/

/-- The row appended when a command with instruction `i` is issued at `now`
for robot `rsn` against ledger `db`. -/
def issued_row (db : DB) (now : Int) (rsn : String) (i : Instruction) : Row :=
  { command_id := db.next_command_id
    robot_serial_number := rsn
    time_issued := now
    time_instruction := now
    instruction := serde_json_to_string i
    completed := false }

/-- The in-memory command returned when an instruction `i` is issued at
`now` for robot `rsn` against ledger `db`. -/
def issued_command (db : DB) (now : Int) (rsn : String) (i : Instruction) :
    Command :=
  { command_id := db.next_command_id
    robot_serial_number := rsn
    time_issued := now
    time_instruction := now
    instruction := i
    completed := false }

/-- Issuing with `time_issued = now` is always inside the issuance buffer,
so `Command.new` at the current time always succeeds and appends one row. -/
lemma Command.new_at_now (db : DB) (now : Int) (rsn : String)
    (i : Instruction) :
    Command.new db now rsn now now i instruction_to_json =
      (.ok (issued_command db now rsn i),
       { db with rows := db.rows ++ [issued_row db now rsn i],
                 next_command_id := db.next_command_id + 1 }) := by
  simp [Command.new, instruction_to_json, TIME_ISSUED_BUFFER,
    issued_command, issued_row]

lemma Command.abort_eq (db : DB) (now : Int) (rsn : String)
    (reason : AbortReason) :
    Command.abort db now rsn reason =
      (.ok (issued_command db now rsn (.Abort reason)),
       { db with rows := db.rows ++ [issued_row db now rsn (.Abort reason)],
                 next_command_id := db.next_command_id + 1 }) := by
  rw [Command.abort, Command.new_at_now]

lemma Command.idle_eq (db : DB) (now : Int) (rsn : String) :
    Command.idle db now rsn =
      (.ok (issued_command db now rsn .Idle),
       { db with rows := db.rows ++ [issued_row db now rsn .Idle],
                 next_command_id := db.next_command_id + 1 }) := by
  rw [Command.idle, Command.new_at_now]

/-- Completion (successful or failed) never touches the identity counter or
the failure-injection flag. -/
lemma Command.complete_preserves (c : Command) (db : DB) :
    ((c.complete db).2).next_command_id = db.next_command_id ∧
      ((c.complete db).2).complete_fails = db.complete_fails := by
  unfold Command.complete
  split <;> simp

/-- `check_battery` is false exactly when the level fails the guard. -/
lemma Poll.check_battery_eq_false (p : Poll)
    (hb : ¬(0 ≤ p.battery_level ∧ MINIMUM_BATTERY_LEVEL < p.battery_level ∧
            p.battery_level ≤ 100)) :
    p.check_battery = false := by
  have hb2 : ¬(0 ≤ p.battery_level ∧ 50 < p.battery_level ∧
      p.battery_level ≤ 100) := by
    simpa [MINIMUM_BATTERY_LEVEL] using hb
  unfold Poll.check_battery
  simp only [Bool.and_eq_false_iff, decide_eq_false_iff_not, not_le, not_lt,
    ge_iff_le, gt_iff_lt, MINIMUM_BATTERY_LEVEL]
  omega

/-! ## Claims -/

/-- Claim C1: whenever the reported battery level fails the battery guard
(guard true iff 0 ≤ level, MINIMUM_BATTERY_LEVEL < level and level ≤ 100,
with MINIMUM_BATTERY_LEVEL = 50), `Poll.poll` issues and returns a new
Abort LowBattery command for the robot, whatever the self-reported
instruction is and whatever the ledger holds — in particular the previous
command is never loaded (the equation holds even on ledgers where
`Command.current` would fail). -/
theorem poll_low_battery_aborts (db : DB) (now : Int) (p : Poll)
    (hb : ¬(0 ≤ p.battery_level ∧ MINIMUM_BATTERY_LEVEL < p.battery_level ∧
            p.battery_level ≤ 100)) :
    Poll.poll db now p =
      Command.abort db now p.robot_serial_number .LowBattery ∧
    Poll.poll db now p =
      (.ok (issued_command db now p.robot_serial_number (.Abort .LowBattery)),
       { db with
           rows := db.rows ++
             [issued_row db now p.robot_serial_number (.Abort .LowBattery)],
           next_command_id := db.next_command_id + 1 }) := by
  have hcb : p.check_battery = false := Poll.check_battery_eq_false p hb
  constructor
  · unfold Poll.poll
    rw [hcb]
    rfl
  · unfold Poll.poll
    rw [hcb]
    simpa using Command.abort_eq db now p.robot_serial_number .LowBattery

/-- Witness for C1: an empty ledger (where loading the previous command
would fail), a self-reported Task ZigZag and battery level 10. -/
theorem poll_low_battery_aborts_witness :
    Poll.poll { rows := [], next_command_id := 1, complete_fails := false } 0
        { robot_serial_number := "R1", instruction := .Task .ZigZag,
          battery_level := 10 } =
      (.ok { command_id := 1, robot_serial_number := "R1", time_issued := 0,
             time_instruction := 0, instruction := .Abort .LowBattery,
             completed := false },
       { rows := [{ command_id := 1, robot_serial_number := "R1",
                    time_issued := 0, time_instruction := 0,
                    instruction := serde_json_to_string (.Abort .LowBattery),
                    completed := false }],
         next_command_id := 2, complete_fails := false }) :=
  (poll_low_battery_aborts
    { rows := [], next_command_id := 1, complete_fails := false } 0
    { robot_serial_number := "R1", instruction := .Task .ZigZag,
      battery_level := 10 } (by decide)).2

/-- Counterexample to Claim C2 as stated: on a robot with no prior ledger
entry, a poll with instruction Idle and battery level 90 (which passes the
guard) does not return a freshly issued Idle command — it fails with the
DatabaseConnFailed persistence error (`Command::current`'s `fetch_one`
finds no row, because the MAX subquery yields NULL and the NATURAL JOIN is
empty, and the error is mapped to DatabaseConnFailed and propagated by
`?`). -/
theorem poll_no_history_counterexample :
    Poll.poll { rows := [], next_command_id := 1, complete_fails := false } 0
        { robot_serial_number := "R1", instruction := .Idle,
          battery_level := 90 } =
      (.error .DatabaseConnFailed,
       { rows := [], next_command_id := 1, complete_fails := false }) := by
  rfl

/-- Claim C2, amended: for every robot with no prior ledger entry, a poll
with any instruction (in particular Idle) and a battery level passing the
guard fails with the DatabaseConnFailed persistence error and leaves the
ledger untouched: the absence of a row is a hard fault propagated to the
caller, not an implicit idle baseline. -/
theorem poll_no_history_fails (db : DB) (now : Int) (p : Poll)
    (hb : p.check_battery = true)
    (hnone : ∀ r ∈ db.rows, r.robot_serial_number ≠ p.robot_serial_number) :
    Poll.poll db now p = (.error .DatabaseConnFailed, db) := by
  have hfilter :
      db.rows.filter
        (fun r => r.robot_serial_number == p.robot_serial_number) = [] := by
    rw [List.filter_eq_nil_iff]
    intro r hr
    simpa using hnone r hr
  have hcur : Command.current db p.robot_serial_number =
      .error .DatabaseConnFailed := by
    unfold Command.current
    rw [hfilter]
    rfl
  unfold Poll.poll
  rw [hb]
  simp [hcur]

/-- Witness for the amended C2: a ledger holding only a row of another
robot, polled with Idle and battery 90. -/
theorem poll_no_history_fails_witness :
    Poll.poll
        { rows := [{ command_id := 1, robot_serial_number := "R2",
                     time_issued := 0, time_instruction := 0,
                     instruction := "\"Idle\"", completed := false }],
          next_command_id := 2, complete_fails := false } 0
        { robot_serial_number := "R1", instruction := .Idle,
          battery_level := 90 } =
      (.error .DatabaseConnFailed,
       { rows := [{ command_id := 1, robot_serial_number := "R2",
                    time_issued := 0, time_instruction := 0,
                    instruction := "\"Idle\"", completed := false }],
         next_command_id := 2, complete_fails := false }) :=
  poll_no_history_fails _ 0
    { robot_serial_number := "R1", instruction := .Idle, battery_level := 90 }
    (by decide) (by decide)

/-- Claim C10 (behaviour of the code at the failing input): a stored row
whose instruction text does not parse is loaded by both `Command.current`
and `Command.pending` as a command with instruction Abort Saftey — the
decode failure is silently mapped to the default safety instruction by
`unwrap_or` instead of being surfaced to the caller as an error. -/
theorem decode_failure_masked_as_abort :
    Command.current
        { rows := [{ command_id := 1, robot_serial_number := "R1",
                     time_issued := 0, time_instruction := 0,
                     instruction := "garbage", completed := false }],
          next_command_id := 2, complete_fails := false } "R1" =
      .ok { command_id := 1, robot_serial_number := "R1", time_issued := 0,
            time_instruction := 0, instruction := .Abort .Saftey,
            completed := false } ∧
    Command.pending
        { rows := [{ command_id := 1, robot_serial_number := "R1",
                     time_issued := 0, time_instruction := 0,
                     instruction := "garbage", completed := false }],
          next_command_id := 2, complete_fails := false } 0 "R1" =
      (.ok { command_id := 1, robot_serial_number := "R1", time_issued := 0,
             time_instruction := 0, instruction := .Abort .Saftey,
             completed := false },
       { rows := [{ command_id := 1, robot_serial_number := "R1",
                    time_issued := 0, time_instruction := 0,
                    instruction := "garbage", completed := false }],
         next_command_id := 2, complete_fails := false }) :=
  ⟨rfl, rfl⟩

/-- Claim C3: whatever the previous instruction is, a poll whose request
instruction is Abort r first attempts to complete the previous command —
the completion's own outcome is discarded, so a completion failure is not
fatal to the response — and then issues and returns a new command with
instruction Abort r and completed = false.  The first conjunct exhibits the
completion attempt; the second gives the returned command and final
ledger, and holds whether or not the completion succeeded. -/
theorem poll_abort_request (db : DB) (now : Int) (p : Poll) (prev : Command)
    (r : AbortReason)
    (hb : p.check_battery = true)
    (hc : Command.current db p.robot_serial_number = .ok prev)
    (hi : p.instruction = .Abort r) :
    Poll.poll db now p =
      Command.abort (prev.complete db).2 now p.robot_serial_number r ∧
    Poll.poll db now p =
      (.ok { command_id := db.next_command_id
             robot_serial_number := p.robot_serial_number
             time_issued := now
             time_instruction := now
             instruction := .Abort r
             completed := false },
       { rows := ((prev.complete db).2).rows ++
           [{ command_id := db.next_command_id
              robot_serial_number := p.robot_serial_number
              time_issued := now
              time_instruction := now
              instruction := serde_json_to_string (.Abort r)
              completed := false }]
         next_command_id := db.next_command_id + 1
         complete_fails := db.complete_fails }) := by
  have h1 : Poll.poll db now p =
      Command.abort (prev.complete db).2 now p.robot_serial_number r := by
    unfold Poll.poll
    rw [hb]
    simp only [Bool.not_true, Bool.false_eq_true, if_false, hc]
    cases hpi : prev.instruction <;> simp [hi]
  refine ⟨h1, ?_⟩
  rw [h1, Command.abort_eq]
  obtain ⟨hn, hf⟩ := Command.complete_preserves prev db
  simp [issued_command, issued_row, hn, hf]

/-- Witness for C3: the previous command is Task ZigZag, the request aborts
with reason Obstacle, and the ledger is set to fail the completion UPDATE
(complete_fails = true) — the poll still answers with the new Abort
command. -/
theorem poll_abort_request_witness :
    Poll.poll
        { rows := [{ command_id := 1, robot_serial_number := "R1",
                     time_issued := 0, time_instruction := 0,
                     instruction := "\x7b\"Task\":\"ZigZag\"\x7d",
                     completed := false }],
          next_command_id := 2, complete_fails := true } 5
        { robot_serial_number := "R1", instruction := .Abort .Obstacle,
          battery_level := 90 } =
      (.ok { command_id := 2, robot_serial_number := "R1", time_issued := 5,
             time_instruction := 5, instruction := .Abort .Obstacle,
             completed := false },
       { rows := [{ command_id := 1, robot_serial_number := "R1",
                    time_issued := 0, time_instruction := 0,
                    instruction := "\x7b\"Task\":\"ZigZag\"\x7d",
                    completed := false },
                  { command_id := 2, robot_serial_number := "R1",
                    time_issued := 5, time_instruction := 5,
                    instruction := serde_json_to_string (.Abort .Obstacle),
                    completed := false }],
         next_command_id := 3, complete_fails := true }) :=
  (poll_abort_request
    { rows := [{ command_id := 1, robot_serial_number := "R1",
                 time_issued := 0, time_instruction := 0,
                 instruction := "\x7b\"Task\":\"ZigZag\"\x7d",
                 completed := false }],
      next_command_id := 2, complete_fails := true } 5
    { robot_serial_number := "R1", instruction := .Abort .Obstacle,
      battery_level := 90 }
    { command_id := 1, robot_serial_number := "R1", time_issued := 0,
      time_instruction := 0, instruction := .Task .ZigZag,
      completed := false }
    .Obstacle (by decide) (by rfl) rfl).2

/-- Claim C4: when the previous command's instruction is Task P and the
request instruction is the same Task P, the poll returns the previous
command itself (same id) and the ledger is unchanged — no new row, so
repeated polling while executing the same task is idempotent. -/
theorem poll_same_task_idempotent (db : DB) (now : Int) (p : Poll)
    (prev : Command) (P : CleaningPattern)
    (hb : p.check_battery = true)
    (hc : Command.current db p.robot_serial_number = .ok prev)
    (hprev : prev.instruction = .Task P)
    (hreq : p.instruction = .Task P) :
    Poll.poll db now p = (.ok prev, db) := by
  unfold Poll.poll
  rw [hb]
  simp [hc, hprev, hreq]

/-- Witness for C4: previous command Task ZigZag, request Task ZigZag. -/
theorem poll_same_task_idempotent_witness :
    Poll.poll
        { rows := [{ command_id := 1, robot_serial_number := "R1",
                     time_issued := 0, time_instruction := 0,
                     instruction := "\x7b\"Task\":\"ZigZag\"\x7d",
                     completed := false }],
          next_command_id := 2, complete_fails := false } 5
        { robot_serial_number := "R1", instruction := .Task .ZigZag,
          battery_level := 90 } =
      (.ok { command_id := 1, robot_serial_number := "R1", time_issued := 0,
             time_instruction := 0, instruction := .Task .ZigZag,
             completed := false },
       { rows := [{ command_id := 1, robot_serial_number := "R1",
                    time_issued := 0, time_instruction := 0,
                    instruction := "\x7b\"Task\":\"ZigZag\"\x7d",
                    completed := false }],
         next_command_id := 2, complete_fails := false }) :=
  poll_same_task_idempotent
    { rows := [{ command_id := 1, robot_serial_number := "R1",
                 time_issued := 0, time_instruction := 0,
                 instruction := "\x7b\"Task\":\"ZigZag\"\x7d",
                 completed := false }],
      next_command_id := 2, complete_fails := false } 5
    { robot_serial_number := "R1", instruction := .Task .ZigZag,
      battery_level := 90 }
    { command_id := 1, robot_serial_number := "R1", time_issued := 0,
      time_instruction := 0, instruction := .Task .ZigZag,
      completed := false }
    .ZigZag (by decide) (by rfl) rfl rfl

/-- Claim C5: any prev/request pair not covered by the Abort row, the
same-pattern Task continuation row or the Idle rows of the decision table
(the request is neither an Abort nor Idle, and is not the same Task the
previous command carries) fails with CmdInstructionNotSupported (the
source's name for InstructionSequenceUnsupported) and leaves the ledger
untouched. -/
theorem poll_unsupported_sequence (db : DB) (now : Int) (p : Poll)
    (prev : Command)
    (hb : p.check_battery = true)
    (hc : Command.current db p.robot_serial_number = .ok prev)
    (hab : ∀ r, p.instruction ≠ .Abort r)
    (hidle : p.instruction ≠ .Idle)
    (htask : ∀ q, prev.instruction = .Task q → p.instruction ≠ .Task q) :
    Poll.poll db now p = (.error .CmdInstructionNotSupported, db) := by
  unfold Poll.poll
  rw [hb]
  simp only [Bool.not_true, Bool.false_eq_true, if_false, hc]
  cases hpi : prev.instruction <;> cases hni : p.instruction <;>
    first
      | exact absurd hni (hab _)
      | exact absurd hni hidle
      | (rename_i q' q
         have hne : q' ≠ q := fun he => htask q' hpi (by rw [hni, he])
         simp [hne])
      | simp

/-- Witness for C5: previous command Task ZigZag, request Task Circular. -/
theorem poll_unsupported_sequence_witness :
    Poll.poll
        { rows := [{ command_id := 1, robot_serial_number := "R1",
                     time_issued := 0, time_instruction := 0,
                     instruction := "\x7b\"Task\":\"ZigZag\"\x7d",
                     completed := false }],
          next_command_id := 2, complete_fails := false } 5
        { robot_serial_number := "R1", instruction := .Task .Circular,
          battery_level := 90 } =
      (.error .CmdInstructionNotSupported,
       { rows := [{ command_id := 1, robot_serial_number := "R1",
                    time_issued := 0, time_instruction := 0,
                    instruction := "\x7b\"Task\":\"ZigZag\"\x7d",
                    completed := false }],
         next_command_id := 2, complete_fails := false }) :=
  poll_unsupported_sequence
    { rows := [{ command_id := 1, robot_serial_number := "R1",
                 time_issued := 0, time_instruction := 0,
                 instruction := "\x7b\"Task\":\"ZigZag\"\x7d",
                 completed := false }],
      next_command_id := 2, complete_fails := false } 5
    { robot_serial_number := "R1", instruction := .Task .Circular,
      battery_level := 90 }
    { command_id := 1, robot_serial_number := "R1", time_issued := 0,
      time_instruction := 0, instruction := .Task .ZigZag,
      completed := false }
    (by decide) (by rfl) (by decide) (by decide) (by decide)

/-- Claim C6: on a poll whose request instruction is Idle, if the previous
command's instruction is some Task pattern the resolver completes the
previous command and then resolves the pending queue; for every other
previous instruction (including Idle) it resolves the pending queue on the
unmodified ledger, without completing the previous command. -/
theorem poll_idle_request (db : DB) (now : Int) (p : Poll) (prev : Command)
    (hb : p.check_battery = true)
    (hc : Command.current db p.robot_serial_number = .ok prev)
    (hreq : p.instruction = .Idle) :
    (∀ pat, prev.instruction = .Task pat →
       Poll.poll db now p =
         Command.pending (prev.complete db).2 now prev.robot_serial_number) ∧
    ((∀ pat, prev.instruction ≠ .Task pat) →
       Poll.poll db now p =
         Command.pending db now prev.robot_serial_number) := by
  constructor
  · intro pat hpi
    unfold Poll.poll
    rw [hb]
    simp [hc, hpi, hreq]
  · intro hnotask
    unfold Poll.poll
    rw [hb]
    simp only [Bool.not_true, Bool.false_eq_true, if_false, hc]
    cases hpi : prev.instruction <;> first
      | exact absurd hpi (hnotask _)
      | simp [hreq]

/-- Witness for C6, both rows of the table: a previous Task ZigZag polled
with Idle goes through completion then pending resolution (the completed
previous row makes the pending queue empty, so a fresh Idle command is
issued); a previous Idle polled with Idle resolves the pending queue
directly on the unmodified ledger (its own incomplete, still-valid row is
the pending head and is returned unchanged). -/
theorem poll_idle_request_witness :
    Poll.poll
        { rows := [{ command_id := 1, robot_serial_number := "R1",
                     time_issued := 0, time_instruction := 0,
                     instruction := "\x7b\"Task\":\"ZigZag\"\x7d",
                     completed := false }],
          next_command_id := 2, complete_fails := false } 5
        { robot_serial_number := "R1", instruction := .Idle,
          battery_level := 90 } =
      Command.pending
        { rows := [{ command_id := 1, robot_serial_number := "R1",
                     time_issued := 0, time_instruction := 0,
                     instruction := "\x7b\"Task\":\"ZigZag\"\x7d",
                     completed := true }],
          next_command_id := 2, complete_fails := false } 5 "R1" ∧
    Poll.poll
        { rows := [{ command_id := 1, robot_serial_number := "R1",
                     time_issued := 0, time_instruction := 0,
                     instruction := "\"Idle\"", completed := false }],
          next_command_id := 2, complete_fails := false } 5
        { robot_serial_number := "R1", instruction := .Idle,
          battery_level := 90 } =
      Command.pending
        { rows := [{ command_id := 1, robot_serial_number := "R1",
                     time_issued := 0, time_instruction := 0,
                     instruction := "\"Idle\"", completed := false }],
          next_command_id := 2, complete_fails := false } 5 "R1" :=
  ⟨(poll_idle_request
      { rows := [{ command_id := 1, robot_serial_number := "R1",
                   time_issued := 0, time_instruction := 0,
                   instruction := "\x7b\"Task\":\"ZigZag\"\x7d",
                   completed := false }],
        next_command_id := 2, complete_fails := false } 5
      { robot_serial_number := "R1", instruction := .Idle,
        battery_level := 90 }
      { command_id := 1, robot_serial_number := "R1", time_issued := 0,
        time_instruction := 0, instruction := .Task .ZigZag,
        completed := false }
      (by decide) (by rfl) rfl).1 .ZigZag rfl,
   (poll_idle_request
      { rows := [{ command_id := 1, robot_serial_number := "R1",
                   time_issued := 0, time_instruction := 0,
                   instruction := "\"Idle\"", completed := false }],
        next_command_id := 2, complete_fails := false } 5
      { robot_serial_number := "R1", instruction := .Idle,
        battery_level := 90 }
      { command_id := 1, robot_serial_number := "R1", time_issued := 0,
        time_instruction := 0, instruction := .Idle, completed := false }
      (by decide) (by rfl) rfl).2 (by decide)⟩

instance : IsTotal Row (fun a b => b.time_instruction ≤ a.time_instruction) :=
  ⟨fun _ _ => le_total _ _⟩

instance : IsTrans Row (fun a b => b.time_instruction ≤ a.time_instruction) :=
  ⟨fun _ _ _ h1 h2 => le_trans h2 h1⟩

/-- Claim C7: pending-queue resolution works on the robot's incomplete
rows ordered by (stored) time_instruction descending — the fetched list is
sorted that way and is a permutation of the robot's incomplete rows.  If
the head of the loaded command list exists and `valid_time_instruction`
holds of it (|now − time_instruction| strictly below
TIME_INSTRUCTION_BUFFER), the head is returned unchanged with the ledger
untouched; otherwise (stale head, or no head) a fresh Idle command is
issued and returned, and the final ledger is the old rows — the stale
incomplete head among them, still incomplete — plus the one new Idle
row. -/
theorem pending_queue_resolution (db : DB) (now : Int) (rsn : String) :
    List.Sorted (fun a b : Row => b.time_instruction ≤ a.time_instruction)
      (Command.pending_rows db rsn) ∧
    (Command.pending_rows db rsn).Perm
      (db.rows.filter
        (fun r => r.robot_serial_number == rsn && r.completed == false)) ∧
    (∀ c, (Command.pending_commands db rsn).head? = some c →
       (c.valid_time_instruction now = true →
          Command.pending db now rsn = (.ok c, db)) ∧
       (c.valid_time_instruction now = false →
          Command.pending db now rsn =
            (.ok (issued_command db now rsn .Idle),
             { db with rows := db.rows ++ [issued_row db now rsn .Idle],
                       next_command_id := db.next_command_id + 1 }))) ∧
    ((Command.pending_commands db rsn).head? = none →
       Command.pending db now rsn =
         (.ok (issued_command db now rsn .Idle),
          { db with rows := db.rows ++ [issued_row db now rsn .Idle],
                    next_command_id := db.next_command_id + 1 })) := by
  refine ⟨List.sorted_insertionSort _ _, List.perm_insertionSort _ _,
    ?_, ?_⟩
  · intro c hhead
    constructor
    · intro hv
      unfold Command.pending
      rw [hhead]
      simp [hv]
    · intro hv
      unfold Command.pending
      rw [hhead]
      simp only [hv, Bool.false_eq_true, if_false]
      exact Command.idle_eq db now rsn
  · intro hhead
    unfold Command.pending
    rw [hhead]
    exact Command.idle_eq db now rsn

/-- Witness for C7: a robot with two incomplete rows whose head (largest
stored time_instruction) was issued at time 10.  Polled at now = 10 the
head is valid and returned unchanged with no ledger write; polled at
now = 5000 the head is stale, a fresh Idle command is issued, and the
stale head row is still present and still incomplete in the final
ledger. -/
theorem pending_queue_resolution_witness :
    Command.pending
        { rows := [{ command_id := 1, robot_serial_number := "R1",
                     time_issued := 3, time_instruction := 3,
                     instruction := "\"Idle\"", completed := false },
                   { command_id := 2, robot_serial_number := "R1",
                     time_issued := 10, time_instruction := 10,
                     instruction := "\x7b\"Task\":\"ZigZag\"\x7d",
                     completed := false }],
          next_command_id := 3, complete_fails := false } 10 "R1" =
      (.ok { command_id := 2, robot_serial_number := "R1", time_issued := 10,
             time_instruction := 10, instruction := .Task .ZigZag,
             completed := false },
       { rows := [{ command_id := 1, robot_serial_number := "R1",
                    time_issued := 3, time_instruction := 3,
                    instruction := "\"Idle\"", completed := false },
                  { command_id := 2, robot_serial_number := "R1",
                    time_issued := 10, time_instruction := 10,
                    instruction := "\x7b\"Task\":\"ZigZag\"\x7d",
                    completed := false }],
         next_command_id := 3, complete_fails := false }) ∧
    Command.pending
        { rows := [{ command_id := 1, robot_serial_number := "R1",
                     time_issued := 3, time_instruction := 3,
                     instruction := "\"Idle\"", completed := false },
                   { command_id := 2, robot_serial_number := "R1",
                     time_issued := 10, time_instruction := 10,
                     instruction := "\x7b\"Task\":\"ZigZag\"\x7d",
                     completed := false }],
          next_command_id := 3, complete_fails := false } 5000 "R1" =
      (.ok { command_id := 3, robot_serial_number := "R1",
             time_issued := 5000, time_instruction := 5000,
             instruction := .Idle, completed := false },
       { rows := [{ command_id := 1, robot_serial_number := "R1",
                    time_issued := 3, time_instruction := 3,
                    instruction := "\"Idle\"", completed := false },
                  { command_id := 2, robot_serial_number := "R1",
                    time_issued := 10, time_instruction := 10,
                    instruction := "\x7b\"Task\":\"ZigZag\"\x7d",
                    completed := false },
                  { command_id := 3, robot_serial_number := "R1",
                    time_issued := 5000, time_instruction := 5000,
                    instruction := serde_json_to_string .Idle,
                    completed := false }],
         next_command_id := 4, complete_fails := false }) :=
  ⟨((pending_queue_resolution
      { rows := [{ command_id := 1, robot_serial_number := "R1",
                   time_issued := 3, time_instruction := 3,
                   instruction := "\"Idle\"", completed := false },
                 { command_id := 2, robot_serial_number := "R1",
                   time_issued := 10, time_instruction := 10,
                   instruction := "\x7b\"Task\":\"ZigZag\"\x7d",
                   completed := false }],
        next_command_id := 3, complete_fails := false } 10 "R1").2.2.1
      { command_id := 2, robot_serial_number := "R1", time_issued := 10,
        time_instruction := 10, instruction := .Task .ZigZag,
        completed := false } rfl).1 rfl,
   ((pending_queue_resolution
      { rows := [{ command_id := 1, robot_serial_number := "R1",
                   time_issued := 3, time_instruction := 3,
                   instruction := "\"Idle\"", completed := false },
                 { command_id := 2, robot_serial_number := "R1",
                   time_issued := 10, time_instruction := 10,
                   instruction := "\x7b\"Task\":\"ZigZag\"\x7d",
                   completed := false }],
        next_command_id := 3, complete_fails := false } 5000 "R1").2.2.1
      { command_id := 2, robot_serial_number := "R1", time_issued := 10,
        time_instruction := 10, instruction := .Task .ZigZag,
        completed := false } rfl).2 rfl⟩

/-- Claim C8: every ledger row loaded by `Command.current` or
`Command.pending` has its in-memory time_instruction field populated from
the stored time_issued column (the stored time_instruction column is
discarded on load), so a loaded command always has
time_instruction = time_issued and `valid_time_instruction` — hence
pending-head validity — is in fact evaluated against time_issued. -/
theorem loaded_time_instruction_is_time_issued (db : DB) (rsn : String)
    (now : Int) :
    (∀ r : Row, (Command.ofRow r).time_instruction = r.time_issued) ∧
    (∀ c, Command.current db rsn = .ok c →
       c.time_instruction = c.time_issued) ∧
    (∀ c, c ∈ Command.pending_commands db rsn →
       c.time_instruction = c.time_issued ∧
       c.valid_time_instruction now =
         decide ((((now - c.time_issued).natAbs : Int)) <
           TIME_INSTRUCTION_BUFFER)) := by
  refine ⟨fun r => rfl, ?_, ?_⟩
  · intro c h
    simp only [Command.current] at h
    split at h
    · simp at h
    · split at h
      · simp at h
      · simp only [Except.ok.injEq] at h
        subst h
        rfl
  · intro c hmem
    unfold Command.pending_commands at hmem
    obtain ⟨r, _, rfl⟩ := List.mem_map.mp hmem
    exact ⟨rfl, rfl⟩

/-- Witness for C8: a stored row whose time_instruction column (99)
differs from its time_issued column (5); the command `Command.current`
loads from it carries time_instruction = time_issued = 5, the stored 99
discarded. -/
theorem loaded_time_instruction_is_time_issued_witness :
    Command.current
        { rows := [{ command_id := 1, robot_serial_number := "R1",
                     time_issued := 5, time_instruction := 99,
                     instruction := "\"Idle\"", completed := false }],
          next_command_id := 2, complete_fails := false } "R1" =
      .ok { command_id := 1, robot_serial_number := "R1", time_issued := 5,
            time_instruction := 5, instruction := .Idle,
            completed := false } ∧
    Command.time_instruction
        { command_id := 1, robot_serial_number := "R1", time_issued := 5,
          time_instruction := 5, instruction := .Idle, completed := false } =
      Command.time_issued
        { command_id := 1, robot_serial_number := "R1", time_issued := 5,
          time_instruction := 5, instruction := .Idle,
          completed := false } ∧
    Row.time_instruction
        { command_id := 1, robot_serial_number := "R1", time_issued := 5,
          time_instruction := 99, instruction := "\"Idle\"",
          completed := false } ≠
      Row.time_issued
        { command_id := 1, robot_serial_number := "R1", time_issued := 5,
          time_instruction := 99, instruction := "\"Idle\"",
          completed := false } :=
  ⟨rfl,
   (loaded_time_instruction_is_time_issued
      { rows := [{ command_id := 1, robot_serial_number := "R1",
                   time_issued := 5, time_instruction := 99,
                   instruction := "\"Idle\"", completed := false }],
        next_command_id := 2, complete_fails := false } "R1" 0).2.1
     { command_id := 1, robot_serial_number := "R1", time_issued := 5,
       time_instruction := 5, instruction := .Idle, completed := false }
     rfl,
   by decide⟩

/-- Claim C9: `Command.new` fails with CommandNotInTimeIssuedBuffer and
writes nothing whenever |now − time_issued| exceeds TIME_ISSUED_BUFFER;
within the window it fails with SerializationError and writes nothing when
the instruction cannot be serialized; and on success it appends exactly
one row and returns the stored command with completed = false. -/
theorem command_new_semantics (db : DB) (now ti tin : Int) (rsn : String)
    (instr : Instruction) (ser : Instruction → Option String) :
    (((now - ti).natAbs : Int) > TIME_ISSUED_BUFFER →
       Command.new db now rsn ti tin instr ser =
         (.error .CommandNotInTimeIssuedBuffer, db)) ∧
    (((now - ti).natAbs : Int) ≤ TIME_ISSUED_BUFFER → ser instr = none →
       Command.new db now rsn ti tin instr ser =
         (.error .SerializationError, db)) ∧
    (∀ s, ((now - ti).natAbs : Int) ≤ TIME_ISSUED_BUFFER →
       ser instr = some s →
       Command.new db now rsn ti tin instr ser =
         (.ok { command_id := db.next_command_id,
                robot_serial_number := rsn, time_issued := ti,
                time_instruction := tin, instruction := instr,
                completed := false },
          { db with
              rows := db.rows ++
                [{ command_id := db.next_command_id,
                   robot_serial_number := rsn, time_issued := ti,
                   time_instruction := tin, instruction := s,
                   completed := false }],
              next_command_id := db.next_command_id + 1 })) := by
  refine ⟨?_, ?_, ?_⟩
  · intro h
    have h2 : |now - ti| > TIME_ISSUED_BUFFER := by
      rw [Int.abs_eq_natAbs]
      exact_mod_cast h
    simp [Command.new, h2]
  · intro h hser
    have h2 : |now - ti| ≤ TIME_ISSUED_BUFFER := by
      rw [Int.abs_eq_natAbs]
      exact_mod_cast h
    simp [Command.new, h2, hser]
  · intro s h hs
    have h2 : |now - ti| ≤ TIME_ISSUED_BUFFER := by
      rw [Int.abs_eq_natAbs]
      exact_mod_cast h
    simp [Command.new, h2, hs]

/-- Witness for C9: against an empty ledger, issuing at now = 2000 with
time_issued = 0 is outside the 1000-second window and fails with no write;
a serializer that fails yields SerializationError with no write; and a
successful issuance appends exactly the one new row. -/
theorem command_new_semantics_witness :
    Command.new { rows := [], next_command_id := 7, complete_fails := false }
        2000 "R1" 0 0 .Idle instruction_to_json =
      (.error .CommandNotInTimeIssuedBuffer,
       { rows := [], next_command_id := 7, complete_fails := false }) ∧
    Command.new { rows := [], next_command_id := 7, complete_fails := false }
        0 "R1" 0 0 .Idle (fun _ => none) =
      (.error .SerializationError,
       { rows := [], next_command_id := 7, complete_fails := false }) ∧
    Command.new { rows := [], next_command_id := 7, complete_fails := false }
        0 "R1" 0 0 .Idle instruction_to_json =
      (.ok { command_id := 7, robot_serial_number := "R1", time_issued := 0,
             time_instruction := 0, instruction := .Idle,
             completed := false },
       { rows := [{ command_id := 7, robot_serial_number := "R1",
                    time_issued := 0, time_instruction := 0,
                    instruction := "\"Idle\"", completed := false }],
         next_command_id := 8, complete_fails := false }) :=
  ⟨(command_new_semantics
      { rows := [], next_command_id := 7, complete_fails := false }
      2000 0 0 "R1" .Idle instruction_to_json).1 (by decide),
   (command_new_semantics
      { rows := [], next_command_id := 7, complete_fails := false }
      0 0 0 "R1" .Idle (fun _ => none)).2.1 (by decide) rfl,
   (command_new_semantics
      { rows := [], next_command_id := 7, complete_fails := false }
      0 0 0 "R1" .Idle instruction_to_json).2.2 "\"Idle\"" (by decide) rfl⟩

end SdpBackend
